import Mathlib

/-!
Shallow embedding of the authoritative game server in `src/game_server.py`
(an Among-Us-like room-based social-deduction game) together with proofs
about its action handlers, phase state machine, task subsystem and vote
tally.  Python dictionaries are modelled as association lists with
insertion-order semantics (`Dict` namespace below); handler methods become
pure functions from `GameState` to an `Eff` record holding the successor
state, the messages sent, and an optional uncaught Python exception
(several code paths of the source raise: attribute lookups on fields that
do not exist, `KeyError` on missing dictionary keys).  Two ghost counters
on `Eff` instrument, without changing, the modelled control flow: how many
times `tally_votes` ran, and how many discussion timers were spawned.
-/

set_option maxRecDepth 4000

namespace AmongUs

/-! ## Python dict model: association lists with insertion order -/

namespace Dict

/-- First value stored under key `k`, like Python `d.get(k)` / `d[k]`. -/
def get? {α : Type} (l : List (String × α)) (k : String) : Option α :=
  match l with
  | [] => none
  | (k1, v) :: rest => if k1 = k then some v else get? rest k

/-- Python `d[k] = v`: update the existing slot in place, else append. -/
def set {α : Type} (l : List (String × α)) (k : String) (v : α) : List (String × α) :=
  match l with
  | [] => [(k, v)]
  | (k1, v1) :: rest => if k1 = k then (k1, v) :: rest else (k1, v1) :: set rest k v

/-- Python `del d[k]` (no-op when the key is absent; callers guard). -/
def erase {α : Type} (l : List (String × α)) (k : String) : List (String × α) :=
  match l with
  | [] => []
  | (k1, v1) :: rest => if k1 = k then rest else (k1, v1) :: erase rest k

/-- Python `d.keys()` in insertion order. -/
def keys {α : Type} (l : List (String × α)) : List String := l.map Prod.fst

/-- Python `d.values()` in insertion order. -/
def values {α : Type} (l : List (String × α)) : List α := l.map Prod.snd

end Dict

/-! ## Data model (`src/game_server.py` lines 45-178) -/

/-- TaskState enum (lines 45-55). -/
inductive TaskState where
  | INACTIVE
  | ACTIVE
  | COMPLETED
  | INTERRUPTED
  deriving DecidableEq, Repr

/-- PlayerRole enum (lines 58-66). -/
inductive PlayerRole where
  | IMPOSTOR
  | CREWMATE
  deriving DecidableEq, Repr

/-- Task model (lines 68-96).  `turns_remaining` is a Python int;
`og_number_of_turns` is `Optional[int]`, `None` until `start` stores the
pre-start turn count in it. -/
structure Task where
  name : String
  room : String
  turns_remaining : Int
  state : TaskState := TaskState.INACTIVE
  og_number_of_turns : Option Int := none
  deriving DecidableEq, Repr

/-- Task.start (lines 76-81): `og_number_of_turns` is overwritten with the
current `turns_remaining` unconditionally, before the state test; only an
INACTIVE task moves to ACTIVE (returning True). -/
def Task.start (t : Task) : Task × Bool :=
  let t1 := { t with og_number_of_turns := some t.turns_remaining }
  if t1.state = TaskState.INACTIVE then ({ t1 with state := TaskState.ACTIVE }, true)
  else (t1, false)

/-- Task.tick (lines 83-89): only an ACTIVE task is advanced; when the
decremented counter reaches 0 or less the task becomes COMPLETED. -/
def Task.tick (t : Task) : Task × Bool :=
  if t.state = TaskState.ACTIVE then
    let t1 := { t with turns_remaining := t.turns_remaining - 1 }
    if t1.turns_remaining ≤ 0 then ({ t1 with state := TaskState.COMPLETED }, true)
    else (t1, false)
  else (t, false)

/-- Task.interrupt (lines 91-96): only an ACTIVE task is interrupted, its
`turns_remaining` being set back to `og_number_of_turns`.  When
`og_number_of_turns` is still `None` the Python assignment would store
`None` into the int field `turns_remaining`; `none` models that unsound
write (every task that reached ACTIVE went through `start`, which set the
field, so the case is unreachable from handler-built tasks). -/
def Task.interrupt (t : Task) : Option (Task × Bool) :=
  if t.state = TaskState.ACTIVE then
    match t.og_number_of_turns with
    | some g => some ({ t with state := TaskState.INTERRUPTED, turns_remaining := g }, true)
    | none => none
  else some (t, false)

/-- Player model (lines 100-117).  The `websocket` field is the runtime
connection handle and is omitted; `tasks` is `Optional[Dict[str, Task]]`
and starts out `None`. -/
structure Player where
  id : String
  location : String := "cafeteria"
  role : PlayerRole := PlayerRole.CREWMATE
  is_alive : Bool := true
  emergency_meetings_left : Int := 1
  tasks : Option (List (String × Task)) := none
  active_task : Option String := none
  movement_locked : Bool := false
  deriving DecidableEq, Repr

/-- Map layout built by the GameState map-initialisation method (lines 157-169). -/
def initial_map_layout : List (String × List String) :=
  [("cafeteria", ["upper_engine", "medbay", "storage"]),
   ("upper_engine", ["cafeteria", "reactor", "engine_room"]),
   ("reactor", ["upper_engine", "security"]),
   ("security", ["reactor", "engine_room", "electrical"]),
   ("electrical", ["security", "lower_engine"]),
   ("lower_engine", ["electrical", "engine_room", "storage"]),
   ("engine_room", ["upper_engine", "security", "lower_engine", "medbay"]),
   ("storage", ["cafeteria", "lower_engine"]),
   ("medbay", ["cafeteria", "engine_room"])]

/-- GameState dataclass (lines 120-139), field for field; the `logger`
field (a runtime logging handle) is omitted.  The source declares the
fields listed here and no others — in particular there is no
`total_crewmate_tasks` field, which `calculate_global_progress` (line 646)
nevertheless reads.  `impostor_share` models the source field named
`impostor_ratio` (line 130, value 0.2), which only feeds the random
impostor-count draw in `assign_roles`. -/
structure GameState where
  players : List (String × Player) := []
  bodies : List (String × String) := []
  map_layout : List (String × List String) := initial_map_layout
  phase : String := "free_roam"
  votes : List (String × String) := []
  game_started : Bool := false
  min_players : Int := 3
  impostor_share : Rat := 1/5
  discussion_duration : Int := 60
  voting_duration : Int := 30
  max_emergency_meetings : Int := 1
  completed_tasks : Int := 0
  task_tick_interval : Int := 5
  disconnected_players : List (String × Player) := []
  deriving DecidableEq, Repr

/-- Fixed identity pool (line 17): ids are handed out by roster size. -/
def PLAYER_NAMES : List String :=
  ["Alice", "Bob", "Charlie", "Dave", "Eve", "Mallory", "Trent", "Frank", "Grace",
   "Henry", "Ivy", "Jack", "Kelly", "Luna", "Max", "Nina", "Oscar", "Penny",
   "Quinn", "Ruby", "Sam"]

/-! ## Outbound messages -/

/-- Outbound message types of the server; payload fields not examined by
any proved property (the state snapshot inside `state_update` and the
discussion-entry message, task turn counts in progress messages) are
abbreviated, recipients and the claim-relevant fields are exact. -/
inductive Msg where
  | welcome (player_id : String)
  | player_connected (player_id : String) (location : String)
  | player_disconnected (player_id : String)
  | game_started
  | state_update
  | player_moved (player_id : String) (fromRoom : String) (toRoom : String)
  | player_killed (killer : String) (victim : String) (location : String)
  | phase_change (phase : String) (duration : Int)
  | emergency_meeting_called (player_id : String)
  | chat_message (player_id : String) (message : String)
  | vote_received
  | player_ejected (player_id : String) (role : PlayerRole)
  | no_ejection (message : String)
  | task_started (task_name : String) (turns : Int)
  | task_progress_started (player_id : String) (task_name : String) (turns : Int)
  | task_progress (task_name : String) (turns : Int)
  | task_complete (player_id : String) (task_name : String)
  | task_interrupted (task_name : String) (reason : String)
  | crew_victory
  | error (message : String)
  deriving DecidableEq, Repr

/-- A delivered message: recipient player id paired with the message. -/
abbrev Sent := String × Msg

/-- Result of running one handler: the successor state, the messages that
were delivered, an uncaught Python exception if one escaped (state and
messages then reflect the work done before the raise, since the source
mutates in place), plus two ghost counters that only instrument the run:
`tallies` counts `tally_votes` entries, `timers_started` counts
`run_discussion_timer` tasks spawned by `start_discussion_phase`. -/
structure Eff where
  s : GameState
  sent : List Sent
  exc : Option String := none
  tallies : Nat := 0
  timers_started : Nat := 0
  deriving Repr

/-- Broadcast (lines 597-619): deliver one message to every roster entry
in insertion order.  Per-recipient connection failures are swallowed by
the source and not modelled. -/
def broadcast (s : GameState) (m : Msg) : List Sent :=
  s.players.map (fun q => (q.1, m))

/-- Ids of the currently alive players, roster order (the comprehension
`[p for p in players.values() if p.is_alive]` used at lines 402-404 and
567). -/
def aliveIds (s : GameState) : List String :=
  (s.players.filter (fun q => q.2.is_alive)).map Prod.fst

/-- send_message (lines 585-595): the roster lookup `players[player_id]`
raises KeyError when the id is absent; connection failures on the actual
send are swallowed by the source and not modelled. -/
def send_message (s : GameState) (pid : String) (m : Msg) : Eff :=
  match Dict.get? s.players pid with
  | none => { s := s, sent := [], exc := some "KeyError" }
  | some _ => { s := s, sent := [(pid, m)] }

/-- send_error (lines 581-583). -/
def send_error (s : GameState) (pid : String) (text : String) : Eff :=
  send_message s pid (Msg.error text)

/-- send_state_update (lines 556-579); the snapshot payload is abbreviated
to the bare `state_update` message, only recipients matter to the claims. -/
def send_state_update (s : GameState) (pid : String) : Eff :=
  send_message s pid Msg.state_update

/-- calculate_global_progress (lines 643-662).  Its second statement reads
`self.state.total_crewmate_tasks`; the GameState dataclass (lines 120-139,
mirrored field for field above) declares no field of that name, so the
attribute lookup raises AttributeError before any counting or division
happens, for every state. -/
def calculate_global_progress (_s : GameState) : Except String Rat :=
  Except.error "AttributeError"

/-- send_task_list_update (the second of the two identical definitions
wins in Python, lines 707-727).  With `tasks` still `None`,
`player.tasks.items()` raises AttributeError.  With at least one task the
first loop iteration reads `task.turns_required` (line 716) — Task
declares no such field (the source field is `turns_remaining`) — so
pydantic raises AttributeError.  With an empty task dict the loop is
skipped and calculate_global_progress (line 721) raises instead.  Hence
every call raises before the state_update message is assembled. -/
def send_task_list_update (s : GameState) (pid : String) : Eff :=
  match Dict.get? s.players pid with
  | none => { s := s, sent := [], exc := some "KeyError" }
  | some player =>
    match player.tasks with
    | none => { s := s, sent := [], exc := some "AttributeError" }
    | some ts =>
      if ts.isEmpty then
        match calculate_global_progress s with
        | Except.error e => { s := s, sent := [], exc := some e }
        | Except.ok _ => { s := s, sent := [(pid, Msg.state_update)] }
      else { s := s, sent := [], exc := some "AttributeError" }

/-- interrupt_player_task (lines 746-767): a no-op when the player has no
active task; otherwise the task object is interrupted in place, the lock
and active-task marker cleared, the interruption reported to the player —
and then send_task_list_update raises, so every successful interruption
lets an AttributeError escape AFTER the state mutations took hold. -/
def interrupt_player_task (s : GameState) (pid : String) (reason : String) : Eff :=
  match Dict.get? s.players pid with
  | none => { s := s, sent := [], exc := some "KeyError" }
  | some player =>
    match player.active_task with
    | none => { s := s, sent := [] }
    | some task_name =>
      match player.tasks with
      | none => { s := s, sent := [], exc := some "TypeError" }
      | some ts =>
        match Dict.get? ts task_name with
        | none => { s := s, sent := [], exc := some "KeyError" }
        | some task =>
          match Task.interrupt task with
          | none => { s := s, sent := [], exc := some "TypeError" }
          | some (task1, interrupted) =>
            if interrupted then
              let player2 := { player with
                tasks := some (Dict.set ts task_name task1),
                movement_locked := false, active_task := none }
              let s2 := { s with players := Dict.set s.players pid player2 }
              -- the task_interrupted send cannot fail: its roster lookup finds
              -- the entry just stored under pid (connection failures are
              -- swallowed by send_message), so it is inlined as one delivery
              let r2 := send_task_list_update s2 pid
              { s := r2.s,
                sent := (pid, Msg.task_interrupted task_name reason) :: r2.sent,
                exc := r2.exc }
            else { s := s, sent := [] }

/-! ## Vote tally (`tally_votes`, lines 522-554) -/

/-- Vote-count dictionary build of lines 524-526: Python dict insertion
order, first-seen targets first. -/
def buildCounts : List String → List (String × Nat) → List (String × Nat)
  | [], acc => acc
  | v :: rest, acc => buildCounts rest (Dict.set acc v ((Dict.get? acc v).getD 0 + 1))

/-- Per-target counts of the current votes map. -/
def vote_counts (s : GameState) : List (String × Nat) :=
  buildCounts (Dict.values s.votes) []

/-- Python `max(vote_counts.values())` (meaningful only when nonempty,
where the fold from 0 agrees with the true maximum). -/
def max_votes (s : GameState) : Nat :=
  ((vote_counts s).map Prod.snd).foldl Nat.max 0

/-- Targets achieving the maximum count (line 531-533), count-dict order. -/
def tallyCandidates (s : GameState) : List String :=
  ((vote_counts s).filter (fun c => c.2 == max_votes s)).map Prod.fst

/-- tally_votes (lines 522-554): with no votes, broadcast no-ejection;
with a unique non-skip plurality target, interrupt that player's task
(KeyError when the target is not in the roster), mark the player dead and
broadcast the ejection with the role; otherwise broadcast no-ejection.
The final `votes.clear()` runs only when no exception escaped first.  The
ghost `tallies` field is 1 in every branch: it counts the invocation. -/
def tally_votes (s : GameState) : Eff :=
  if (vote_counts s).isEmpty then
    { s := { s with votes := [] },
      sent := broadcast s (Msg.no_ejection "No votes cast."), tallies := 1 }
  else
    if (tallyCandidates s).length = 1 ∧ (tallyCandidates s).headD "" ≠ "skip" then
      let ejected_id := (tallyCandidates s).headD ""
      let r1 := interrupt_player_task s ejected_id "death"
      match r1.exc with
      | some e => { s := r1.s, sent := r1.sent, exc := some e, tallies := 1 }
      | none =>
        match Dict.get? r1.s.players ejected_id with
        | none => { s := r1.s, sent := r1.sent, exc := some "KeyError", tallies := 1 }
        | some p =>
          let s2 := { r1.s with
            players := Dict.set r1.s.players ejected_id { p with is_alive := false } }
          { s := { s2 with votes := [] },
            sent := r1.sent ++ broadcast s2 (Msg.player_ejected ejected_id p.role),
            tallies := 1 }
    else
      { s := { s with votes := [] },
        sent := broadcast s (Msg.no_ejection "No one was ejected."), tallies := 1 }

/-! ## Phase machine -/

/-- Interruption loop of start_discussion_phase (lines 477-479): iterate
the roster ids in order, re-reading the evolving state, stopping at the
first escaped exception. -/
def interruptMany (s : GameState) (acc : List Sent) : List String → Eff
  | [] => { s := s, sent := acc }
  | pid :: rest =>
    let r := interrupt_player_task s pid "discussion"
    match r.exc with
    | some e => { s := r.s, sent := acc ++ r.sent, exc := some e }
    | none => interruptMany r.s (acc ++ r.sent) rest

/-- start_discussion_phase (lines 472-501): set the phase, clear the
votes, interrupt every player's active task, send each player the
discussion phase_change message (a per-player state snapshot in the
source; phase and duration modelled), and spawn one run_discussion_timer
task — recorded in the ghost `timers_started`, pending timers are never
cancelled. -/
def start_discussion_phase (s : GameState) : Eff :=
  let s1 := { s with phase := "discussion", votes := [] }
  let r := interruptMany s1 [] (Dict.keys s1.players)
  match r.exc with
  | some e => { s := r.s, sent := r.sent, exc := some e }
  | none =>
    let out2 := r.s.players.map
      (fun q => (q.1, Msg.phase_change "discussion" r.s.discussion_duration))
    { s := r.s, sent := r.sent ++ out2, timers_started := 1 }

/-- Prefix of start_voting_phase (lines 508-517) up to its await sleep:
flip the phase to voting and broadcast the change with the duration. -/
def start_voting_phase_enter (s : GameState) : Eff :=
  let s1 := { s with phase := "voting" }
  { s := s1, sent := broadcast s1 (Msg.phase_change "voting" s1.voting_duration) }

/-- Remainder of start_voting_phase (lines 518-520) after the sleep: tally
the votes, then silently set the phase back to free_roam — no
phase_change message is sent for this transition.  When the tally raises,
the free_roam assignment is skipped. -/
def start_voting_phase_resume (s : GameState) : Eff :=
  let r := tally_votes s
  match r.exc with
  | some e => { s := r.s, sent := r.sent, exc := some e, tallies := r.tallies }
  | none => { s := { r.s with phase := "free_roam" }, sent := r.sent, tallies := r.tallies }

/-! ## Action handlers -/

/-- on_action_move (lines 324-352): the movement lock is checked first,
then adjacency from the current room; the actor's aliveness is never
consulted.  On success everyone is told of the move and the occupants of
the old and new rooms get state updates. -/
def on_action_move (s : GameState) (pid : String) (destination : String) : Eff :=
  match Dict.get? s.players pid with
  | none => { s := s, sent := [], exc := some "KeyError" }
  | some player =>
    if player.movement_locked then
      send_error s pid "Cannot move while performing a task."
    else if destination ∈ (Dict.get? s.map_layout player.location).getD [] then
      let s1 := { s with players := Dict.set s.players pid { player with location := destination } }
      let moved := broadcast s1 (Msg.player_moved pid player.location destination)
      let updates := (s1.players.filter
        (fun q => q.2.location == player.location || q.2.location == destination)).map
        (fun q => (q.1, Msg.state_update))
      { s := s1, sent := moved ++ updates }
    else
      send_error s pid "Invalid move."

/-- on_action_kill (lines 354-381): requires an impostor killer, both
parties alive and co-located; not phase-gated, and the victim's active
task is NOT interrupted.  On success the victim dies, a body entry is
recorded at the room, the kill is broadcast and the victim gets a state
update. -/
def on_action_kill (s : GameState) (killer_id : String) (target_id : String) : Eff :=
  match Dict.get? s.players killer_id, Dict.get? s.players target_id with
  | some killer, some target =>
    if killer.role = PlayerRole.IMPOSTOR ∧ killer.is_alive ∧ target.is_alive ∧
        killer.location = target.location then
      let s1 := { s with
        players := Dict.set s.players target_id { target with is_alive := false },
        bodies := Dict.set s.bodies target_id target.location }
      let out := broadcast s1 (Msg.player_killed killer_id target_id target.location)
      let r := send_state_update s1 target_id
      { s := r.s, sent := out ++ r.sent, exc := r.exc }
    else send_error s killer_id "Invalid kill attempt."
  | _, _ => send_error s killer_id "Invalid kill attempt."

/-- on_action_report (lines 383-392): succeeds iff some body lies in the
reporter's room; the reporter's aliveness and the current phase are not
checked, and the body entry is NOT removed — success just starts the
discussion phase. -/
def on_action_report (s : GameState) (reporter_id : String) : Eff :=
  match Dict.get? s.players reporter_id with
  | none => { s := s, sent := [], exc := some "KeyError" }
  | some reporter =>
    if (Dict.values s.bodies).any (fun loc => loc == reporter.location) then
      start_discussion_phase s
    else
      send_error s reporter_id "No bodies to report here."

/-- on_action_vote (lines 394-407): the only precondition checked is that
the voter has not voted yet — phase, voter aliveness and target validity
are not consulted.  After recording, when the vote count is at least the
alive-player count, tally_votes runs inline (the pending voting timer is
not cancelled). -/
def on_action_vote (s : GameState) (pid : String) (voted_player : String) : Eff :=
  if (Dict.get? s.votes pid).isSome then
    send_error s pid "You have already voted."
  else
    let s1 := { s with votes := Dict.set s.votes pid voted_player }
    let r1 := send_message s1 pid Msg.vote_received
    match r1.exc with
    | some e => { s := s1, sent := r1.sent, exc := some e }
    | none =>
      if s1.votes.length ≥ (aliveIds s1).length then
        let r2 := tally_votes s1
        { s := r2.s, sent := r1.sent ++ r2.sent, exc := r2.exc, tallies := r2.tallies }
      else { s := s1, sent := r1.sent }

/-- on_action_call_meeting (lines 409-429): only the remaining-meetings
counter is checked (aliveness is not); on success the counter is
decremented, the meeting announced, and the discussion phase starts. -/
def on_action_call_meeting (s : GameState) (pid : String) : Eff :=
  match Dict.get? s.players pid with
  | none => { s := s, sent := [], exc := some "KeyError" }
  | some player =>
    if player.emergency_meetings_left > 0 then
      let player1 := { player with emergency_meetings_left := player.emergency_meetings_left - 1 }
      let s1 := { s with players := Dict.set s.players pid player1 }
      let out := broadcast s1 (Msg.emergency_meeting_called pid)
      let r := start_discussion_phase s1
      { s := r.s, sent := out ++ r.sent, exc := r.exc, timers_started := r.timers_started }
    else send_error s pid "No emergency meetings left."

/-- on_action_chat (lines 431-459): only allowed during discussion; an
alive sender's message is broadcast to everyone, a dead sender's message
gets the ghost tag and goes exactly to the dead players (the sender
included), never to a living one; outside discussion an error reply. -/
def on_action_chat (s : GameState) (pid : String) (message_text : String) : Eff :=
  match Dict.get? s.players pid with
  | none => { s := s, sent := [], exc := some "KeyError" }
  | some player =>
    if s.phase = "discussion" then
      if player.is_alive then
        { s := s, sent := broadcast s (Msg.chat_message pid message_text) }
      else
        let ghost := Msg.chat_message pid ("[GHOST] " ++ message_text)
        { s := s,
          sent := (s.players.filter (fun q => !q.2.is_alive)).map (fun q => (q.1, ghost)) }
    else send_error s pid "Cannot chat now."

/-- validate_task_start (lines 729-744), in the source's check order.  The
membership test `task_name not in player.tasks` raises TypeError when
`tasks` is still `None` (this server never calls assign_tasks, so that is
every player it creates); `Except.error` models the raise. -/
def validate_task_start (s : GameState) (pid : String) (task_name : String) :
    Except String (Bool × Option String) :=
  match Dict.get? s.players pid with
  | none => Except.error "KeyError"
  | some player =>
    if ¬ player.is_alive then Except.ok (false, some "Player is not alive")
    else if s.phase ≠ "free_roam" then Except.ok (false, some "Not in free roam phase")
    else
      match player.tasks with
      | none => Except.error "TypeError"
      | some ts =>
        match Dict.get? ts task_name with
        | none => Except.ok (false, some "Task not assigned to player")
        | some task =>
          if player.location ≠ task.room then
            Except.ok (false, some "Player is not in the correct room")
          else if player.active_task.isSome then
            Except.ok (false, some "Player has another active task")
          else Except.ok (true, none)

/-- on_action_task (lines 664-705): after validation, Task.start runs
(mutating og_number_of_turns even when it returns False), the player is
locked in place with the task active, and the start is announced to the
player and broadcast. -/
def on_action_task (s : GameState) (pid : String) (task_name : String) : Eff :=
  match validate_task_start s pid task_name with
  | Except.error e => { s := s, sent := [], exc := some e }
  | Except.ok (false, reason) => send_error s pid (reason.getD "")
  | Except.ok (true, _) =>
    match Dict.get? s.players pid with
    | none => { s := s, sent := [], exc := some "KeyError" }
    | some player =>
      match player.tasks with
      | none => { s := s, sent := [], exc := some "TypeError" }
      | some ts =>
        match Dict.get? ts task_name with
        | none => { s := s, sent := [], exc := some "KeyError" }
        | some task =>
          let r0 := Task.start task
          let player1 := { player with tasks := some (Dict.set ts task_name r0.1) }
          if ¬ r0.2 then
            let s1 := { s with players := Dict.set s.players pid player1 }
            send_error s1 pid "Task could not be started"
          else
            let player2 := { player1 with active_task := some task_name, movement_locked := true }
            let s1 := { s with players := Dict.set s.players pid player2 }
            let r1 := send_message s1 pid (Msg.task_started task_name r0.1.turns_remaining)
            let out2 := broadcast s1 (Msg.task_progress_started pid task_name r0.1.turns_remaining)
            { s := s1, sent := r1.sent ++ out2, exc := r1.exc }

/-! ## Task tick loop -/

/-- Per-player body of process_task_ticks (lines 775-815) folded over the
roster ids.  A completing tick releases the lock and clears the
active-task marker, after which calculate_global_progress raises, so the
task_complete broadcast and the crew_victory check behind it are dead
code; the modelled ok-branch keeps them for fidelity. -/
def tickMany (s : GameState) (acc : List Sent) : List String → Eff
  | [] => { s := s, sent := acc }
  | pid :: rest =>
    match Dict.get? s.players pid with
    | none => tickMany s acc rest
    | some player =>
      match player.active_task with
      | none => tickMany s acc rest
      | some task_name =>
        match player.tasks with
        | none => { s := s, sent := acc, exc := some "TypeError" }
        | some ts =>
          match Dict.get? ts task_name with
          | none => { s := s, sent := acc, exc := some "KeyError" }
          | some task =>
            let r0 := Task.tick task
            let player1 := { player with tasks := some (Dict.set ts task_name r0.1) }
            let out1 := [(pid, Msg.task_progress task_name r0.1.turns_remaining)]
            if r0.2 then
              let player2 := { player1 with movement_locked := false, active_task := none }
              let s2 := { s with players := Dict.set s.players pid player2 }
              match calculate_global_progress s2 with
              | Except.error e => { s := s2, sent := acc ++ out1, exc := some e }
              | Except.ok progress =>
                let out2 := broadcast s2 (Msg.task_complete pid task_name)
                if progress ≥ 1 then
                  tickMany s2 (acc ++ out1 ++ out2 ++ broadcast s2 Msg.crew_victory) rest
                else tickMany s2 (acc ++ out1 ++ out2) rest
            else
              let s1 := { s with players := Dict.set s.players pid player1 }
              tickMany s1 (acc ++ out1) rest

/-- process_task_ticks (lines 775-815). -/
def process_task_ticks (s : GameState) : Eff :=
  tickMany s [] (Dict.keys s.players)

/-! ## Connection lifecycle -/

/-- assign_roles (lines 462-470).  The impostor set is drawn by
random.sample over the current ids; the draw is an input here
(`impostor_ids`), everything downstream of the randomness is exact: every
roster entry's role is rewritten and a state update scheduled per
player. -/
def assign_roles (s : GameState) (impostor_ids : List String) : GameState × List Sent :=
  let players1 := s.players.map (fun q =>
    (q.1, { q.2 with role :=
      if impostor_ids.contains q.1 then PlayerRole.IMPOSTOR else PlayerRole.CREWMATE }))
  ({ s with players := players1 }, s.players.map (fun q => (q.1, Msg.state_update)))

/-- Connection-accept fragment of handle_connection (lines 203-263): when
the roster is below the identity-pool bound, the new connection is handed
the id at index (current roster size) of PLAYER_NAMES — nothing checks
that this id is free — and a fresh default Player is stored under it,
overwriting any existing roster entry with that key.  Then the welcome
and join broadcast go out and, when the roster size reaches min_players
with the game not yet started, roles are assigned (draw given as
`impostor_ids`) and game_started latches. -/
def handle_connect (s : GameState) (impostor_ids : List String) : GameState × List Sent :=
  if s.players.length ≥ PLAYER_NAMES.length then (s, [])
  else
    let player_id := PLAYER_NAMES.getD s.players.length ""
    let s1 := { s with players := Dict.set s.players player_id { id := player_id } }
    let out1 := [(player_id, Msg.welcome player_id)] ++
      broadcast s1 (Msg.player_connected player_id "cafeteria")
    if (s1.players.length : Int) ≥ s1.min_players ∧ ¬ s1.game_started then
      let r := assign_roles s1 impostor_ids
      let s3 := { r.1 with game_started := true }
      (s3, out1 ++ r.2 ++ broadcast s3 Msg.game_started ++ [(player_id, Msg.state_update)])
    else (s1, out1 ++ [(player_id, Msg.state_update)])

/-- on_player_disconnected (lines 305-322): the roster entry is deleted
and the departure broadcast; the task-interrupt call there is commented
out in the source, so the departing player's task is NOT interrupted. -/
def on_player_disconnected (s : GameState) (pid : String) : GameState × List Sent :=
  match Dict.get? s.players pid with
  | none => (s, [])
  | some _ =>
    let s1 := { s with players := Dict.erase s.players pid }
    (s1, broadcast s1 (Msg.player_disconnected pid))

/-! ## Event interleaving model -/

/-- Inbound action message forms (the wire actions of §6). -/
inductive ActionMsg where
  | move (destination : String)
  | kill (target : String)
  | report
  | vote (target : String)
  | call_meeting
  | chat (text : String)
  | task (task_name : String)
  deriving DecidableEq, Repr

/-- Event dispatch of handle_connection's message loop (lines 266-272) to
the registered action handlers. -/
def dispatch (s : GameState) (pid : String) : ActionMsg → Eff
  | ActionMsg.move dest => on_action_move s pid dest
  | ActionMsg.kill target => on_action_kill s pid target
  | ActionMsg.report => on_action_report s pid
  | ActionMsg.vote target => on_action_vote s pid target
  | ActionMsg.call_meeting => on_action_call_meeting s pid
  | ActionMsg.chat text => on_action_chat s pid text
  | ActionMsg.task task_name => on_action_task s pid task_name

/-- Running configuration of the event-interleaving model: the game state
plus the numbers of pending (sleeping) discussion and voting timer tasks.
start_discussion_phase spawns a fresh run_discussion_timer without
cancelling pending ones, and nothing ever cancels the sleep inside
start_voting_phase.  `tally_runs` and `log` accumulate the ghost tally
counter and all deliveries; `crashed` latches once a handler let an
exception escape. -/
structure Config where
  s : GameState
  discussion_timers : Nat := 0
  voting_timers : Nat := 0
  tally_runs : Nat := 0
  log : List Sent := []
  crashed : Bool := false
  deriving Repr

/-- One schedulable occurrence: an inbound action from a connection; the
expiry of a sleeping run_discussion_timer (lines 503-506, which runs
start_voting_phase up to ITS sleep); the expiry of that voting sleep
(which tallies and silently returns the phase to free_roam); or one round
of the task-tick loop. -/
inductive Ev where
  | act (pid : String) (a : ActionMsg)
  | discussion_timer_fires
  | voting_timer_fires
  | task_tick
  deriving Repr

/-- Serialized execution of one event against the configuration: the
source runs everything on one asyncio loop, so handler bodies interleave
only at awaits, and each modelled event is one such atomic run.  Timer
events with no pending timer are no-ops. -/
def stepEv (c : Config) : Ev → Config
  | Ev.act pid a =>
    let r := dispatch c.s pid a
    { c with
      s := r.s
      log := c.log ++ r.sent
      tally_runs := c.tally_runs + r.tallies
      discussion_timers := c.discussion_timers + r.timers_started
      crashed := c.crashed || r.exc.isSome }
  | Ev.discussion_timer_fires =>
    if c.discussion_timers = 0 then c
    else
      let r := start_voting_phase_enter c.s
      { c with
        s := r.s
        log := c.log ++ r.sent
        discussion_timers := c.discussion_timers - 1
        voting_timers := c.voting_timers + 1 }
  | Ev.voting_timer_fires =>
    if c.voting_timers = 0 then c
    else
      let r := start_voting_phase_resume c.s
      { c with
        s := r.s
        log := c.log ++ r.sent
        voting_timers := c.voting_timers - 1
        tally_runs := c.tally_runs + r.tallies
        crashed := c.crashed || r.exc.isSome }
  | Ev.task_tick =>
    let r := process_task_ticks c.s
    { c with
      s := r.s
      log := c.log ++ r.sent
      crashed := c.crashed || r.exc.isSome }

/-- Fold a list of events through stepEv. -/
def runEvents (c : Config) : List Ev → Config
  | [] => c
  | e :: es => runEvents (stepEv c e) es

/-! ## Concrete fixture states -/

/-- Roster with two alive players and one dead one, mid-game in free
roam, nobody having voted. -/
def sFree : GameState :=
  { players := [("Alice", { id := "Alice" }), ("Bob", { id := "Bob" }),
                ("Charlie", { id := "Charlie", is_alive := false })],
    game_started := true }

/-- Roster where alive Bob stands in the cafeteria next to Charlie's
unreported body. -/
def sBody : GameState :=
  { players := [("Bob", { id := "Bob" }),
                ("Charlie", { id := "Charlie", is_alive := false })],
    bodies := [("Charlie", "cafeteria")],
    game_started := true }

/-- Same situation but the would-be reporter Bob is himself dead. -/
def sBodyDead : GameState :=
  { players := [("Bob", { id := "Bob", is_alive := false }),
                ("Charlie", { id := "Charlie", is_alive := false })],
    bodies := [("Charlie", "cafeteria")],
    game_started := true }

/-- Roster where Bob is dead, unlocked, in the cafeteria. -/
def sDeadMover : GameState :=
  { players := [("Alice", { id := "Alice" }), ("Bob", { id := "Bob", is_alive := false })],
    game_started := true }

/-- A one-turn cafeteria task in the ACTIVE state (as Task.start leaves
it, the original turn count recorded). -/
def taskActive : Task :=
  { name := "Task 1", room := "cafeteria", turns_remaining := 1,
    state := TaskState.ACTIVE, og_number_of_turns := some 1 }

/-- Impostor Alice shares the cafeteria with Bob, who is mid-task:
taskActive is running, his movement is locked. -/
def sMidTask : GameState :=
  { players := [("Alice", { id := "Alice", role := PlayerRole.IMPOSTOR }),
                ("Bob", { id := "Bob", tasks := some [("Task 1", taskActive)],
                          active_task := some "Task 1", movement_locked := true })],
    game_started := true }

/-- Voting-phase roster of four with a 2-2 split between A and B. -/
def sTie : GameState :=
  { players := [("A", { id := "A" }), ("B", { id := "B" }),
                ("C", { id := "C" }), ("D", { id := "D" })],
    phase := "voting",
    votes := [("A", "A"), ("B", "A"), ("C", "B"), ("D", "B")], game_started := true }

/-- Voting-phase roster of four voting 3 for A against 1 skip. -/
def sMajority : GameState :=
  { players := [("A", { id := "A" }), ("B", { id := "B" }),
                ("C", { id := "C" }), ("D", { id := "D" })],
    phase := "voting",
    votes := [("A", "A"), ("B", "A"), ("C", "A"), ("D", "skip")], game_started := true }

/-- Voting phase with an empty votes map. -/
def sNoVotes : GameState :=
  { players := [("A", { id := "A" })], phase := "voting", votes := [], game_started := true }

/-- Discussion-phase roster with one living and two dead players. -/
def sGhosts : GameState :=
  { players := [("Alice", { id := "Alice" }), ("Bob", { id := "Bob", is_alive := false }),
                ("Charlie", { id := "Charlie", is_alive := false })],
    phase := "discussion", game_started := true }

/-- Connection story: Alice then Bob connect to a fresh server, Bob walks
to medbay, Alice disconnects — leaving a roster of size one whose next
handed-out id is again "Bob". -/
def cs1 : GameState := (handle_connect {} []).1

/-- Second connection: Bob joins. -/
def cs2 : GameState := (handle_connect cs1 []).1

/-- Bob moves to medbay, distinguishing his entry from a fresh default. -/
def cs2b : GameState := (on_action_move cs2 "Bob" "medbay").s

/-- Alice disconnects; the roster is ["Bob"], of size 1. -/
def cs3 : GameState := (on_player_disconnected cs2b "Alice").1

/-- A further connection is accepted on the size-1 roster. -/
def cs4 : GameState := (handle_connect cs3 []).1

/-- Three-player mid-game roster (Alice the impostor) for the
kill-report-discuss-vote trace. -/
def sTrio : GameState :=
  { players := [("Alice", { id := "Alice", role := PlayerRole.IMPOSTOR }),
                ("Bob", { id := "Bob" }), ("Charlie", { id := "Charlie" })],
    game_started := true }

/-- Initial configuration over sTrio. -/
def trioConfig : Config := { s := sTrio }

/-- Alice kills Charlie, Bob reports, the discussion timer expires, both
living players vote skip (the second vote triggers the inline tally),
then the never-cancelled voting timer expires. -/
def trioTrace : List Ev :=
  [Ev.act "Alice" (ActionMsg.kill "Charlie"),
   Ev.act "Bob" ActionMsg.report,
   Ev.discussion_timer_fires,
   Ev.act "Alice" (ActionMsg.vote "skip"),
   Ev.act "Bob" (ActionMsg.vote "skip"),
   Ev.voting_timer_fires]

/-! ## Task state-machine operation words -/

/-- Names of the three Task operations the engine ever applies. -/
inductive TaskOp where
  | startOp
  | tickOp
  | interruptOp
  deriving DecidableEq, Repr

/-- State effect of one Task operation (dropping the returned Bool); the
unreachable unsound-write case of Task.interrupt (see there) is mapped to
the unchanged task. -/
def applyOp (t : Task) : TaskOp → Task
  | TaskOp.startOp => (Task.start t).1
  | TaskOp.tickOp => (Task.tick t).1
  | TaskOp.interruptOp =>
    match Task.interrupt t with
    | some r => r.1
    | none => t

/-- Fold a word of Task operations over a task. -/
def applyOps (t : Task) : List TaskOp → Task
  | [] => t
  | op :: ops => applyOps (applyOp t op) ops

/-- Error-reply discriminator on outbound messages. -/
def isErrorMsg : Msg → Bool
  | Msg.error _ => true
  | _ => false

/-- Discriminator for a phase_change message announcing free_roam. -/
def isFreeRoamPhaseChange : Msg → Bool
  | Msg.phase_change ph _ => ph == "free_roam"
  | _ => false

/-! ## Dictionary and broadcast lemmas -/

theorem Dict.get?_set_self {α : Type} (l : List (String × α)) (k : String) (v : α) :
    Dict.get? (Dict.set l k v) k = some v := by
  induction l with
  | nil => simp [Dict.set, Dict.get?]
  | cons hd tl ih =>
    obtain ⟨k1, v1⟩ := hd
    by_cases h : k1 = k
    · simp [Dict.set, h, Dict.get?]
    · simp [Dict.set, h, Dict.get?, ih]

theorem Dict.get?_set_ne {α : Type} (l : List (String × α)) (k k2 : String) (v : α)
    (h : k ≠ k2) : Dict.get? (Dict.set l k v) k2 = Dict.get? l k2 := by
  induction l with
  | nil => simp [Dict.set, Dict.get?, h]
  | cons hd tl ih =>
    obtain ⟨k1, v1⟩ := hd
    by_cases h1 : k1 = k
    · subst h1
      simp [Dict.set, Dict.get?, h]
    · simp [Dict.set, h1, Dict.get?, ih]

theorem Dict.length_set_of_mem {α : Type} (l : List (String × α)) (k : String) (v : α)
    (h : (Dict.get? l k).isSome) : (Dict.set l k v).length = l.length := by
  induction l with
  | nil => simp [Dict.get?] at h
  | cons hd tl ih =>
    obtain ⟨k1, v1⟩ := hd
    by_cases h1 : k1 = k
    · simp [Dict.set, h1]
    · simp [Dict.get?, h1] at h
      simp [Dict.set, h1, ih h]

theorem Dict.set_ne_nil {α : Type} (l : List (String × α)) (k : String) (v : α) :
    Dict.set l k v ≠ [] := by
  cases l with
  | nil => simp [Dict.set]
  | cons hd tl =>
    obtain ⟨k1, v1⟩ := hd
    by_cases h : k1 = k <;> simp [Dict.set, h]

theorem Dict.get?_mem {α : Type} {l : List (String × α)} {k : String} {v : α}
    (h : Dict.get? l k = some v) : (k, v) ∈ l := by
  induction l with
  | nil => simp [Dict.get?] at h
  | cons hd tl ih =>
    obtain ⟨k1, v1⟩ := hd
    by_cases h1 : k1 = k
    · subst h1
      simp [Dict.get?] at h
      simp [h]
    · simp [Dict.get?, h1] at h
      simp [ih h]

theorem Dict.isSome_of_mem_keys {α : Type} {l : List (String × α)} {k : String}
    (h : k ∈ Dict.keys l) : (Dict.get? l k).isSome := by
  induction l with
  | nil => simp [Dict.keys] at h
  | cons hd tl ih =>
    obtain ⟨k1, v1⟩ := hd
    by_cases h1 : k1 = k
    · simp [Dict.get?, h1]
    · have h' : k ∈ k1 :: Dict.keys tl := h
      have h2 : k ∈ Dict.keys tl := by
        rcases List.mem_cons.mp h' with h3 | h3
        · exact absurd h3.symm h1
        · exact h3
      simp [Dict.get?, h1, ih h2]

theorem Dict.get?_eq_none_of_not_mem {α : Type} {l : List (String × α)} {k : String}
    (h : k ∉ l.map Prod.fst) : Dict.get? l k = none := by
  induction l with
  | nil => simp [Dict.get?]
  | cons hd tl ih =>
    obtain ⟨k1, v1⟩ := hd
    have h1 : k1 ≠ k := by
      intro he
      exact h (by simp [he])
    have h2 : k ∉ tl.map Prod.fst := by
      intro hm
      exact h (by simp [hm])
    simp [Dict.get?, h1, ih h2]

theorem Dict.get?_of_mem_nodup {α : Type} {l : List (String × α)} {k : String} {v : α}
    (hnd : (l.map Prod.fst).Nodup) (h : (k, v) ∈ l) : Dict.get? l k = some v := by
  induction l with
  | nil => simp at h
  | cons hd tl ih =>
    obtain ⟨k1, v1⟩ := hd
    have hnd' : k1 ∉ tl.map Prod.fst ∧ (tl.map Prod.fst).Nodup :=
      List.nodup_cons.mp hnd
    rcases List.mem_cons.mp h with h3 | h3
    · have h1 : k1 = k := (congrArg Prod.fst h3).symm
      have h2 : v1 = v := (congrArg Prod.snd h3).symm
      simp [Dict.get?, h1, h2]
    · have hk : k1 ≠ k := by
        intro he
        exact hnd'.1 (he ▸ List.mem_map_of_mem Prod.fst h3)
      simp [Dict.get?, hk, ih hnd'.2 h3]

theorem Dict.map_fst_set {α : Type} (l : List (String × α)) (k : String) (v : α)
    (h : (Dict.get? l k).isSome) : (Dict.set l k v).map Prod.fst = l.map Prod.fst := by
  induction l with
  | nil => simp [Dict.get?] at h
  | cons hd tl ih =>
    obtain ⟨k1, v1⟩ := hd
    by_cases h1 : k1 = k
    · simp [Dict.set, h1]
    · simp [Dict.get?, h1] at h
      simp [Dict.set, h1, ih h]

theorem Dict.get?_erase_self {α : Type} (l : List (String × α)) (k : String)
    (hnd : (l.map Prod.fst).Nodup) : Dict.get? (Dict.erase l k) k = none := by
  induction l with
  | nil => simp [Dict.erase, Dict.get?]
  | cons hd tl ih =>
    obtain ⟨k1, v1⟩ := hd
    have hnd' : k1 ∉ tl.map Prod.fst ∧ (tl.map Prod.fst).Nodup :=
      List.nodup_cons.mp hnd
    by_cases h1 : k1 = k
    · subst h1
      simp only [Dict.erase, if_pos rfl]
      exact Dict.get?_eq_none_of_not_mem hnd'.1
    · simp [Dict.erase, h1, Dict.get?, h1, ih hnd'.2]

theorem broadcast_mem {s : GameState} {m : Msg} {k : String}
    (h : k ∈ Dict.keys s.players) : (k, m) ∈ broadcast s m := by
  have h' : k ∈ s.players.map Prod.fst := h
  obtain ⟨q, hq, hfst⟩ := List.mem_map.mp h'
  have hm : (q.1, m) ∈ broadcast s m :=
    List.mem_map_of_mem (fun q => (q.1, m)) hq
  rw [hfst] at hm
  exact hm

theorem mem_broadcast {s : GameState} {m : Msg} {q : Sent}
    (h : q ∈ broadcast s m) : q.2 = m := by
  obtain ⟨a, _, ha⟩ := List.mem_map.mp h
  rw [← ha]

end AmongUs

namespace AmongUs

/-! ## Claim C10 -/

/-- C10: once a task is in the Interrupted state no operation ever
returns it to Active or Completed — Task.start succeeds only from
Inactive, Task.tick only advances Active tasks, Task.interrupt only acts
on Active tasks — so under any word of the three operations an
interrupted task stays Interrupted, hence is permanently unfinishable
(never Completed, so it can never again count towards global progress)
even though its turnsRemaining was reset to the original value. -/
theorem c10_interrupted_is_absorbing :
    (∀ t : Task, t.state ≠ TaskState.INACTIVE →
      (Task.start t).2 = false ∧ (Task.start t).1.state = t.state) ∧
    (∀ t : Task, t.state ≠ TaskState.ACTIVE → Task.tick t = (t, false)) ∧
    (∀ t : Task, t.state ≠ TaskState.ACTIVE → Task.interrupt t = some (t, false)) ∧
    (∀ (t : Task) (ops : List TaskOp), t.state = TaskState.INTERRUPTED →
      (applyOps t ops).state = TaskState.INTERRUPTED ∧
      (applyOps t ops).state ≠ TaskState.COMPLETED ∧
      (applyOps t ops).state ≠ TaskState.ACTIVE) := by
  have key : ∀ (ops : List TaskOp) (t : Task), t.state = TaskState.INTERRUPTED →
      (applyOps t ops).state = TaskState.INTERRUPTED := by
    intro ops
    induction ops with
    | nil =>
      intro t h
      exact h
    | cons op rest ih =>
      intro t h
      have hstep : (applyOp t op).state = TaskState.INTERRUPTED := by
        cases op with
        | startOp => simp [applyOp, Task.start, h]
        | tickOp => simp [applyOp, Task.tick, h]
        | interruptOp => simp [applyOp, Task.interrupt, h]
      exact ih _ hstep
  refine ⟨?_, ?_, ?_, ?_⟩
  · intro t h
    simp [Task.start, h]
  · intro t h
    simp [Task.tick, h]
  · intro t h
    simp [Task.interrupt, h]
  · intro t ops h
    have h1 := key ops t h
    refine ⟨h1, ?_, ?_⟩ <;> simp [h1]

/-- Witness: the absorbing-state theorem applied to a concrete
interrupted one-turn task and the operation word start-tick-interrupt. -/
theorem c10_interrupted_is_absorbing_witness :
    ({ taskActive with state := TaskState.INTERRUPTED } : Task).state = TaskState.INTERRUPTED ∧
    (applyOps { taskActive with state := TaskState.INTERRUPTED }
      [TaskOp.startOp, TaskOp.tickOp, TaskOp.interruptOp]).state = TaskState.INTERRUPTED :=
  ⟨rfl, (c10_interrupted_is_absorbing.2.2.2 _ _ rfl).1⟩

/-! ## Claim C3 -/

/-- C3 (code bug in handle_connection): ids are handed out by roster
size, so after Alice and Bob joined, Bob moved to medbay and Alice left,
the size-1 roster makes the next accepted connection receive the id
"Bob" — the id of a currently connected player — and storing the fresh
default player under it displaces Bob's roster entry (his location
resets to the spawn room; the roster does not grow), violating id
uniqueness and stability. -/
theorem c3_duplicate_id_displaces_roster_entry :
    Dict.keys cs3.players = ["Bob"] ∧
    PLAYER_NAMES.getD cs3.players.length "" = "Bob" ∧
    (Dict.get? cs3.players "Bob").map Player.location = some "medbay" ∧
    cs4.players.length = cs3.players.length ∧
    (Dict.get? cs4.players "Bob").map Player.location = some "cafeteria" := by
  decide

/-! ## Claim counterexamples C1, C2, C4, C5, C8 -/

/-- C1 counterexample: in sFree the phase is free_roam (not voting), the
voter Charlie is dead, and the target "Zorp" is neither "skip" nor an
existing player id — yet on_action_vote records the vote and replies
vote_received, with no error and a changed state, so the claimed
preconditions are not enforced. -/
theorem c1_counterexample :
    sFree.phase ≠ "voting" ∧
    (Dict.get? sFree.players "Charlie").map Player.is_alive = some false ∧
    "Zorp" ≠ "skip" ∧
    Dict.get? sFree.players "Zorp" = none ∧
    (on_action_vote sFree "Charlie" "Zorp").s.votes = [("Charlie", "Zorp")] ∧
    (on_action_vote sFree "Charlie" "Zorp").sent = [("Charlie", Msg.vote_received)] := by
  decide

/-- C2 counterexample: alive Bob reports the body in his room — the
report succeeds (phase becomes discussion, no exception, no error
reply), but the body entry is NOT removed from the bodies map; and in
sBodyDead the DEAD Bob's report succeeds just the same, so the
aliveness precondition is not enforced either. -/
theorem c2_counterexample :
    (Dict.get? sBody.players "Bob").map Player.is_alive = some true ∧
    Dict.values sBody.bodies = ["cafeteria"] ∧
    (on_action_report sBody "Bob").s.phase = "discussion" ∧
    (on_action_report sBody "Bob").s.bodies = [("Charlie", "cafeteria")] ∧
    (on_action_report sBody "Bob").exc = none ∧
    ((on_action_report sBody "Bob").sent.filter (fun q => isErrorMsg q.2)) = [] ∧
    (Dict.get? sBodyDead.players "Bob").map Player.is_alive = some false ∧
    (on_action_report sBodyDead "Bob").s.phase = "discussion" ∧
    ((on_action_report sBodyDead "Bob").sent.filter (fun q => isErrorMsg q.2)) = [] := by
  decide

/-- C4 counterexample: along trioTrace (kill, report, discussion timer,
two skip votes, voting timer) the tally has already run once when the
last living player votes, yet the phase is still voting at that point;
the uncancelled voting timer then tallies a second time — two tallies in
a single voting phase — and no phase_change(free_roam) message ever
appears in the log. -/
theorem c4_counterexample :
    (runEvents trioConfig (trioTrace.take 5)).tally_runs = 1 ∧
    (runEvents trioConfig (trioTrace.take 5)).s.phase = "voting" ∧
    (runEvents trioConfig trioTrace).tally_runs = 2 ∧
    (runEvents trioConfig trioTrace).s.phase = "free_roam" ∧
    (runEvents trioConfig trioTrace).crashed = false ∧
    ((runEvents trioConfig trioTrace).log.filter (fun q => isFreeRoamPhaseChange q.2)) = [] := by
  decide

/-- C5 counterexample: Bob is dead (and unlocked) yet his move to the
adjacent medbay succeeds — his location is updated, player_moved is
broadcast and no error is returned — so the aliveness precondition of
the move claim is not enforced. -/
theorem c5_counterexample :
    Dict.get? sDeadMover.players "Bob" = some { id := "Bob", is_alive := false } ∧
    (on_action_move sDeadMover "Bob" "medbay").s.players =
      [("Alice", { id := "Alice" }),
       ("Bob", { id := "Bob", is_alive := false, location := "medbay" })] ∧
    ("Alice", Msg.player_moved "Bob" "cafeteria" "medbay") ∈
      (on_action_move sDeadMover "Bob" "medbay").sent ∧
    ((on_action_move sDeadMover "Bob" "medbay").sent.filter (fun q => isErrorMsg q.2)) = [] := by
  decide

/-- C8 counterexample: Bob's task is Active and his movement locked when
impostor Alice kills him; the kill succeeds (Bob dies, a body entry
appears, no exception) but his task remains Active with its turns
untouched and movementLocked stays true — a death by kill does not
interrupt the task. -/
theorem c8_counterexample :
    taskActive.state = TaskState.ACTIVE ∧
    (on_action_kill sMidTask "Alice" "Bob").exc = none ∧
    Dict.get? (on_action_kill sMidTask "Alice" "Bob").s.players "Bob" =
      some { id := "Bob", is_alive := false, tasks := some [("Task 1", taskActive)],
             active_task := some "Task 1", movement_locked := true } ∧
    (on_action_kill sMidTask "Alice" "Bob").s.bodies = [("Bob", "cafeteria")] := by
  decide

end AmongUs

namespace AmongUs

/-! ## Claim C9 -/

/-- C9: chat is rejected with an error outside the Discussion phase; an
alive sender's message is broadcast to everyone; a dead sender's
(ghost-tagged) message goes to every dead player, only to dead players,
and never to any living player. -/
theorem c9_ghost_chat_isolation (s : GameState) (pid text : String) (p : Player)
    (hp : Dict.get? s.players pid = some p)
    (hnd : (s.players.map Prod.fst).Nodup) :
    (s.phase = "discussion" → p.is_alive = false →
      (on_action_chat s pid text).s = s ∧
      (∀ q ∈ (on_action_chat s pid text).sent,
        ∃ pl, Dict.get? s.players q.1 = some pl ∧ pl.is_alive = false) ∧
      (∀ qid pl, Dict.get? s.players qid = some pl → pl.is_alive = false →
        (qid, Msg.chat_message pid ("[GHOST] " ++ text)) ∈ (on_action_chat s pid text).sent) ∧
      (∀ qid pl, Dict.get? s.players qid = some pl → pl.is_alive = true →
        ∀ m, (qid, m) ∉ (on_action_chat s pid text).sent)) ∧
    (s.phase = "discussion" → p.is_alive = true →
      (on_action_chat s pid text).s = s ∧
      (on_action_chat s pid text).sent = broadcast s (Msg.chat_message pid text)) ∧
    (s.phase ≠ "discussion" →
      (on_action_chat s pid text).s = s ∧
      (on_action_chat s pid text).sent = [(pid, Msg.error "Cannot chat now.")]) := by
  refine ⟨?_, ?_, ?_⟩
  · intro hph hdead
    have hr : on_action_chat s pid text =
        { s := s, sent := (s.players.filter (fun q => !q.2.is_alive)).map
            (fun q => (q.1, Msg.chat_message pid ("[GHOST] " ++ text))) } := by
      simp [on_action_chat, hp, hph, hdead]
    refine ⟨by rw [hr], ?_, ?_, ?_⟩
    · intro q hq
      rw [hr] at hq
      obtain ⟨e, he, hqe⟩ := List.mem_map.mp hq
      have hef := List.mem_filter.mp he
      refine ⟨e.2, ?_, by simpa using hef.2⟩
      rw [← hqe]
      exact Dict.get?_of_mem_nodup hnd hef.1
    · intro qid pl hpl hdead2
      rw [hr]
      have hmem : (qid, pl) ∈ s.players := Dict.get?_mem hpl
      have hfil : (qid, pl) ∈ s.players.filter (fun q => !q.2.is_alive) :=
        List.mem_filter.mpr ⟨hmem, by simp [hdead2]⟩
      exact List.mem_map_of_mem _ hfil
    · intro qid pl hpl halive m hm
      rw [hr] at hm
      obtain ⟨e, he, hqe⟩ := List.mem_map.mp hm
      have hef := List.mem_filter.mp he
      have h1 : e.1 = qid := congrArg Prod.fst hqe
      have h2 : Dict.get? s.players e.1 = some e.2 := Dict.get?_of_mem_nodup hnd hef.1
      rw [h1] at h2
      have h4 : pl = e.2 := Option.some.inj (hpl.symm.trans h2)
      have h5 : e.2.is_alive = false := by simpa using hef.2
      rw [← h4] at h5
      rw [halive] at h5
      exact Bool.true_eq_false ▸ h5
  · intro hph halive
    constructor <;> simp [on_action_chat, hp, hph, halive]
  · intro hph
    constructor <;> simp [on_action_chat, hp, hph, send_error, send_message]

/-- Witness: in sGhosts the dead Bob's discussion chat reaches the dead
Charlie and Bob himself but no message of it reaches the living Alice. -/
theorem c9_ghost_chat_isolation_witness :
    ("Charlie", Msg.chat_message "Bob" ("[GHOST] " ++ "hello")) ∈
      (on_action_chat sGhosts "Bob" "hello").sent ∧
    (∀ m, ("Alice", m) ∉ (on_action_chat sGhosts "Bob" "hello").sent) := by
  have h := c9_ghost_chat_isolation sGhosts "Bob" "hello"
    { id := "Bob", is_alive := false } (by decide) (by decide)
  have hA := h.1 rfl rfl
  exact ⟨hA.2.2.1 "Charlie" { id := "Charlie", is_alive := false } (by decide) rfl,
    fun m => hA.2.2.2 "Alice" { id := "Alice" } (by decide) rfl m⟩

/-! ## Claim C7 -/

theorem tickMany_no_victory (l : List String) (s : GameState) (acc : List Sent)
    (hacc : ∀ q ∈ acc, q.2 ≠ Msg.crew_victory) :
    ∀ q ∈ (tickMany s acc l).sent, q.2 ≠ Msg.crew_victory := by
  induction l generalizing s acc with
  | nil => simpa [tickMany] using hacc
  | cons pid rest ih =>
    intro q hq
    cases hg : Dict.get? s.players pid with
    | none =>
      simp only [tickMany, hg] at hq
      exact ih s acc hacc q hq
    | some player =>
      cases ha : player.active_task with
      | none =>
        simp only [tickMany, hg, ha] at hq
        exact ih s acc hacc q hq
      | some tn =>
        cases ht : player.tasks with
        | none =>
          simp only [tickMany, hg, ha, ht] at hq
          exact hacc q hq
        | some ts =>
          cases htk : Dict.get? ts tn with
          | none =>
            simp only [tickMany, hg, ha, ht, htk] at hq
            exact hacc q hq
          | some task =>
            by_cases hc : (Task.tick task).2 = true
            · simp only [tickMany, hg, ha, ht, htk, hc, if_true,
                calculate_global_progress] at hq
              rcases List.mem_append.mp hq with h | h
              · exact hacc q h
              · rw [List.mem_singleton.mp h]
                intro hfalse
                exact Msg.noConfusion hfalse
            · simp only [tickMany, hg, ha, ht, htk, hc, if_false] at hq
              refine ih _ _ ?_ q hq
              intro q2 hq2
              rcases List.mem_append.mp hq2 with h | h
              · exact hacc q2 h
              · rw [List.mem_singleton.mp h]
                intro hfalse
                exact Msg.noConfusion hfalse

/-- C7 (code bug): the global-progress computation always raises — it
reads the nonexistent GameState attribute total_crewmate_tasks — so no
progress ratio (completed crewmate tasks over total) is ever produced,
and process_task_ticks never broadcasts crew_victory; concretely, on
sMidTask the one-turn active task completes on the first tick and the
tick loop dies with the AttributeError. -/
theorem c7_progress_crashes_and_no_victory :
    (∀ s : GameState, calculate_global_progress s = Except.error "AttributeError") ∧
    (∀ s : GameState, ∀ q ∈ (process_task_ticks s).sent, q.2 ≠ Msg.crew_victory) ∧
    (process_task_ticks sMidTask).exc = some "AttributeError" ∧
    (process_task_ticks sMidTask).sent = [("Bob", Msg.task_progress "Task 1" 0)] := by
  refine ⟨fun s => rfl, ?_, by decide, by decide⟩
  intro s q hq
  exact tickMany_no_victory (Dict.keys s.players) s [] (by simp) q hq

/-- Witness: the no-crew-victory conjunct applied at the concrete
crashing state and its only delivered message. -/
theorem c7_progress_crashes_and_no_victory_witness :
    calculate_global_progress sMidTask = Except.error "AttributeError" ∧
    ("Bob", Msg.task_progress "Task 1" 0).2 ≠ Msg.crew_victory := by
  refine ⟨c7_progress_crashes_and_no_victory.1 sMidTask, ?_⟩
  exact c7_progress_crashes_and_no_victory.2.1 sMidTask ("Bob", Msg.task_progress "Task 1" 0)
    (by decide)

end AmongUs

namespace AmongUs

/-! ## Handler-shape lemmas -/

theorem send_message_s (s : GameState) (pid : String) (m : Msg) :
    (send_message s pid m).s = s := by
  unfold send_message
  split <;> rfl

theorem send_message_sent (s : GameState) (pid : String) (m : Msg) :
    ∀ q ∈ (send_message s pid m).sent, q.2 = m := by
  unfold send_message
  split
  · intro q hq
    simp at hq
  · intro q hq
    rw [List.mem_singleton.mp hq]

theorem send_task_list_update_raises {s : GameState} {pid : String} {p : Player}
    {ts : List (String × Task)}
    (hp : Dict.get? s.players pid = some p) (ht : p.tasks = some ts) :
    send_task_list_update s pid = { s := s, sent := [], exc := some "AttributeError" } := by
  unfold send_task_list_update
  simp only [hp, ht]
  by_cases hne : ts.isEmpty = true
  · rw [if_pos hne]
    simp only [calculate_global_progress]
  · rw [if_neg hne]

theorem send_task_list_update_s (s : GameState) (pid : String) :
    (send_task_list_update s pid).s = s := by
  unfold send_task_list_update
  repeat' split
  all_goals rfl

theorem send_task_list_update_sent (s : GameState) (pid : String) :
    ∀ q ∈ (send_task_list_update s pid).sent, q.2 = Msg.state_update := by
  unfold send_task_list_update
  repeat' split
  all_goals intro q hq
  all_goals simp at hq
  all_goals simp [hq]

/-- Full reduction of interrupt_player_task on a player whose active task
is genuinely Active (with the original turn count recorded): the task is
set to Interrupted with its turns restored, the lock and marker cleared,
the interruption reported — and the trailing task-list update raises. -/
theorem interrupt_player_task_active {s : GameState} {pid : String} {p : Player}
    {ts : List (String × Task)} {tn : String} {t : Task} {g : Int} (reason : String)
    (hp : Dict.get? s.players pid = some p) (ha : p.active_task = some tn)
    (ht : p.tasks = some ts) (htk : Dict.get? ts tn = some t)
    (hstate : t.state = TaskState.ACTIVE) (hog : t.og_number_of_turns = some g) :
    interrupt_player_task s pid reason =
      { s := { s with
          players := Dict.set s.players pid
            { p with
              tasks := some (Dict.set ts tn
                { t with
                  state := TaskState.INTERRUPTED
                  turns_remaining := g })
              movement_locked := false
              active_task := none } }
        sent := [(pid, Msg.task_interrupted tn reason)]
        exc := some "AttributeError" } := by
  have hint : Task.interrupt t =
      some ({ t with state := TaskState.INTERRUPTED, turns_remaining := g }, true) := by
    rw [Task.interrupt, if_pos hstate, hog]
  unfold interrupt_player_task
  simp only [hp, ha, ht, htk, hint]
  rw [if_pos trivial]
  rw [send_task_list_update_raises (Dict.get?_set_self s.players pid _) rfl]

/-- Reduction of interrupt_player_task on a player with no active task:
a complete no-op. -/
theorem interrupt_player_task_no_active {s : GameState} {pid : String} {p : Player}
    (reason : String) (hp : Dict.get? s.players pid = some p) (ha : p.active_task = none) :
    interrupt_player_task s pid reason = { s := s, sent := [] } := by
  unfold interrupt_player_task
  simp only [hp, ha]

theorem interrupt_player_task_phase (s : GameState) (pid reason : String) :
    (interrupt_player_task s pid reason).s.phase = s.phase := by
  unfold interrupt_player_task
  repeat' split
  all_goals try rfl
  all_goals dsimp only
  all_goals rw [send_task_list_update_s]

theorem interrupt_player_task_sent_no_phase (s : GameState) (pid reason : String) :
    ∀ q ∈ (interrupt_player_task s pid reason).sent, isFreeRoamPhaseChange q.2 = false := by
  intro q hq
  unfold interrupt_player_task at hq
  revert hq
  repeat' split
  all_goals intro hq
  all_goals try simp at hq
  all_goals rcases hq with h | h
  · rw [h]
    rfl
  · rw [send_task_list_update_sent _ _ q h]
    rfl

theorem tally_votes_tallies (s : GameState) : (tally_votes s).tallies = 1 := by
  unfold tally_votes
  repeat' split
  all_goals dsimp only
  all_goals try rfl
  all_goals rcases hexc :
    (interrupt_player_task s ((tallyCandidates s).headD "") "death").exc with _ | e
  all_goals simp only [hexc]
  all_goals try rfl
  all_goals rcases hq2 :
    (Dict.get? (interrupt_player_task s ((tallyCandidates s).headD "") "death").s.players ((tallyCandidates s).headD "")) with _ | p
  all_goals simp only [hq2]
  all_goals rfl

theorem tally_votes_phase (s : GameState) : (tally_votes s).s.phase = s.phase := by
  unfold tally_votes
  repeat' split
  all_goals dsimp only
  all_goals try rfl
  all_goals rcases hexc :
    (interrupt_player_task s ((tallyCandidates s).headD "") "death").exc with _ | e
  all_goals simp only [hexc]
  all_goals try (exact interrupt_player_task_phase s _ "death")
  all_goals rcases hq2 :
    (Dict.get? (interrupt_player_task s ((tallyCandidates s).headD "") "death").s.players ((tallyCandidates s).headD "")) with _ | p
  all_goals simp only [hq2]
  all_goals exact interrupt_player_task_phase s _ "death"

theorem tally_votes_sent_no_phase (s : GameState) :
    ∀ q ∈ (tally_votes s).sent, isFreeRoamPhaseChange q.2 = false := by
  intro q hq
  unfold tally_votes at hq
  revert hq
  repeat' split
  all_goals dsimp only
  all_goals try (intro hq; rw [mem_broadcast hq]; rfl)
  all_goals rcases hexc :
    (interrupt_player_task s ((tallyCandidates s).headD "") "death").exc with _ | e
  all_goals simp only [hexc]
  all_goals try (intro hq; exact interrupt_player_task_sent_no_phase _ _ _ q hq)
  all_goals rcases hq2 :
    (Dict.get? (interrupt_player_task s ((tallyCandidates s).headD "") "death").s.players ((tallyCandidates s).headD "")) with _ | p
  all_goals simp only [hq2]
  all_goals try (intro hq; exact interrupt_player_task_sent_no_phase _ _ _ q hq)
  all_goals intro hq
  all_goals rcases List.mem_append.mp hq with h | h
  all_goals try (exact interrupt_player_task_sent_no_phase _ _ _ q h)
  all_goals (rw [mem_broadcast h]; rfl)

/-! ## Claim C5 -/

/-- C5 amended: a move succeeds iff the actor is not movementLocked and
the destination is adjacent to the current room — the actor's aliveness
is not checked; on success the location is updated, player_moved is
delivered to every roster entry and no error is sent; on either failure
the state is unchanged and the matching error is returned to the
sender. -/
theorem c5_move_amended (s : GameState) (pid destination : String) (p : Player)
    (hp : Dict.get? s.players pid = some p) :
    (p.movement_locked = true →
      (on_action_move s pid destination).s = s ∧
      (on_action_move s pid destination).sent =
        [(pid, Msg.error "Cannot move while performing a task.")]) ∧
    (p.movement_locked = false →
      destination ∈ (Dict.get? s.map_layout p.location).getD [] →
      (on_action_move s pid destination).s =
        { s with players := Dict.set s.players pid { p with location := destination } } ∧
      (∀ k ∈ Dict.keys s.players,
        (k, Msg.player_moved pid p.location destination) ∈ (on_action_move s pid destination).sent) ∧
      ((on_action_move s pid destination).sent.filter (fun q => isErrorMsg q.2)) = [] ∧
      (on_action_move s pid destination).exc = none) ∧
    (p.movement_locked = false →
      destination ∉ (Dict.get? s.map_layout p.location).getD [] →
      (on_action_move s pid destination).s = s ∧
      (on_action_move s pid destination).sent = [(pid, Msg.error "Invalid move.")]) := by
  refine ⟨?_, ?_, ?_⟩
  · intro hlock
    constructor <;> simp [on_action_move, hp, hlock, send_error, send_message]
  · intro hlock hadj
    have hr : on_action_move s pid destination =
        { s := { s with players := Dict.set s.players pid { p with location := destination } },
          sent := broadcast { s with players := Dict.set s.players pid { p with location := destination } }
              (Msg.player_moved pid p.location destination) ++
            (((Dict.set s.players pid { p with location := destination }).filter
              (fun q => q.2.location == p.location || q.2.location == destination)).map
              (fun q => (q.1, Msg.state_update))) } := by
      simp [on_action_move, hp, hlock, hadj]
    refine ⟨by rw [hr], ?_, ?_, by rw [hr]⟩
    · intro k hk
      rw [hr]
      refine List.mem_append_left _ ?_
      apply broadcast_mem
      have : (Dict.set s.players pid { p with location := destination }).map Prod.fst =
          s.players.map Prod.fst := Dict.map_fst_set _ _ _ (by rw [hp]; rfl)
      show k ∈ (Dict.set s.players pid { p with location := destination }).map Prod.fst
      rw [this]
      exact hk
    · rw [hr]
      rw [List.filter_eq_nil_iff]
      intro q hq
      rcases List.mem_append.mp hq with h | h
      · rw [mem_broadcast h]
        simp [isErrorMsg]
      · obtain ⟨e, _, hqe⟩ := List.mem_map.mp h
        rw [← hqe]
        simp [isErrorMsg]
  · intro hlock hadj
    constructor <;> simp [on_action_move, hp, hlock, hadj, send_error, send_message]

/-- Witness: the amended move theorem applied to the dead, unlocked Bob
moving from the cafeteria to the adjacent medbay in sDeadMover. -/
theorem c5_move_amended_witness :
    ("Bob", Msg.player_moved "Bob" "cafeteria" "medbay") ∈
      (on_action_move sDeadMover "Bob" "medbay").sent ∧
    (on_action_move sDeadMover "Bob" "medbay").exc = none := by
  have h := (c5_move_amended sDeadMover "Bob" "medbay"
    { id := "Bob", is_alive := false } (by decide)).2.1 rfl (by decide)
  exact ⟨h.2.1 "Bob" (by decide), h.2.2.2⟩

/-! ## Claim C1 -/

/-- C1 amended: on_action_vote records the vote iff the sender has not
voted yet this phase — the phase, the sender's aliveness and the
target's validity are not checked; a repeat vote gets the already-voted
error with the state unchanged and no tally; after a recorded vote the
tally runs immediately iff the new vote count is at least the number of
alive players, and below that threshold the only effects are the
recorded vote and the vote_received reply. -/
theorem c1_vote_amended (s : GameState) (pid target : String)
    (hp : (Dict.get? s.players pid).isSome) :
    ((Dict.get? s.votes pid).isSome →
      (on_action_vote s pid target).s = s ∧
      (on_action_vote s pid target).sent = [(pid, Msg.error "You have already voted.")] ∧
      (on_action_vote s pid target).tallies = 0) ∧
    ((Dict.get? s.votes pid).isNone →
      (on_action_vote s pid target).tallies =
        (if (Dict.set s.votes pid target).length ≥ (aliveIds s).length then 1 else 0) ∧
      ((Dict.set s.votes pid target).length < (aliveIds s).length →
        (on_action_vote s pid target).s = { s with votes := Dict.set s.votes pid target } ∧
        (on_action_vote s pid target).sent = [(pid, Msg.vote_received)])) := by
  obtain ⟨p, hpv⟩ := Option.isSome_iff_exists.mp hp
  constructor
  · intro hv
    refine ⟨?_, ?_, ?_⟩ <;> simp [on_action_vote, hv, send_error, send_message, hpv]
  · intro hv
    have hv' : Dict.get? s.votes pid = none := Option.isNone_iff_eq_none.mp hv
    have hA : aliveIds { s with votes := Dict.set s.votes pid target } = aliveIds s := rfl
    constructor
    · by_cases hge : (Dict.set s.votes pid target).length ≥ (aliveIds s).length
      · simp only [if_pos hge]
        simp [on_action_vote, hv', send_message, hpv, hA, hge, tally_votes_tallies]
      · simp only [if_neg hge]
        simp [on_action_vote, hv', send_message, hpv, hA, hge]
    · intro hlt
      have hge : ¬ (Dict.set s.votes pid target).length ≥ (aliveIds s).length :=
        Nat.not_le_of_lt hlt
      constructor <;> simp [on_action_vote, hv', send_message, hpv, hA, hge]

/-- Witness: the amended vote theorem applied to the dead Charlie voting
for the nonexistent "Zorp" during free roam in sFree. -/
theorem c1_vote_amended_witness :
    (on_action_vote sFree "Charlie" "Zorp").s =
      { sFree with votes := Dict.set sFree.votes "Charlie" "Zorp" } ∧
    (on_action_vote sFree "Charlie" "Zorp").sent = [("Charlie", Msg.vote_received)] := by
  have h := (c1_vote_amended sFree "Charlie" "Zorp" (by decide)).2 (by decide)
  exact h.2 (by decide)

end AmongUs

namespace AmongUs

/-! ## Claim C2 -/

theorem interruptMany_no_active (l : List String) (s : GameState) (acc : List Sent)
    (h : ∀ pid ∈ l, ∃ p, Dict.get? s.players pid = some p ∧ p.active_task = none) :
    interruptMany s acc l = { s := s, sent := acc } := by
  induction l generalizing acc with
  | nil => rfl
  | cons pid rest ih =>
    obtain ⟨p, hp, ha⟩ := h pid (List.mem_cons_self pid rest)
    simp only [interruptMany, interrupt_player_task_no_active "discussion" hp ha]
    simp only [List.append_nil]
    exact ih acc (fun pid2 hm => h pid2 (List.mem_cons_of_mem _ hm))

/-- Reduction of start_discussion_phase when no player has an active
task (true of every state this server reaches, tasks never being
assigned): phase set, votes cleared, a phase_change message per player,
one discussion timer spawned. -/
theorem start_discussion_phase_no_active (s : GameState)
    (hactive : ∀ q ∈ s.players, (Prod.snd q).active_task = none) :
    start_discussion_phase s =
      { s := { s with phase := "discussion", votes := [] }
        sent := s.players.map
          (fun q => (q.1, Msg.phase_change "discussion" s.discussion_duration))
        timers_started := 1 } := by
  have hall : ∀ pid2 ∈ Dict.keys s.players,
      ∃ p2, Dict.get? s.players pid2 = some p2 ∧ p2.active_task = none := by
    intro pid2 hm
    obtain ⟨p2, hp2⟩ := Option.isSome_iff_exists.mp (Dict.isSome_of_mem_keys hm)
    exact ⟨p2, hp2, hactive (pid2, p2) (Dict.get?_mem hp2)⟩
  unfold start_discussion_phase
  dsimp only
  rw [interruptMany_no_active (Dict.keys s.players)
    { s with phase := "discussion", votes := [] } [] hall]
  rfl

/-- C2 amended: report succeeds iff some body lies in the reporter's
room — the reporter's aliveness is not checked — and on success the body
entry is NOT removed (the bodies map is unchanged) while the phase is
set to discussion with the votes cleared and no error is replied; on
failure the state is unchanged and the no-bodies error is returned.  The
no-active-task hypothesis pins down the interruption loop and holds in
every reachable state. -/
theorem c2_report_amended (s : GameState) (pid : String) (p : Player)
    (hp : Dict.get? s.players pid = some p)
    (hactive : ∀ q ∈ s.players, (Prod.snd q).active_task = none) :
    ((Dict.values s.bodies).any (fun loc => loc == p.location) = true →
      (on_action_report s pid).s = { s with phase := "discussion", votes := [] } ∧
      (on_action_report s pid).s.bodies = s.bodies ∧
      (on_action_report s pid).exc = none ∧
      (on_action_report s pid).timers_started = 1 ∧
      ((on_action_report s pid).sent.filter (fun q => isErrorMsg q.2)) = []) ∧
    ((Dict.values s.bodies).any (fun loc => loc == p.location) = false →
      (on_action_report s pid).s = s ∧
      (on_action_report s pid).sent = [(pid, Msg.error "No bodies to report here.")]) := by
  constructor
  · intro hbody
    have hr : on_action_report s pid = start_discussion_phase s := by
      simp [on_action_report, hp, hbody]
    rw [hr, start_discussion_phase_no_active s hactive]
    refine ⟨rfl, rfl, rfl, rfl, ?_⟩
    rw [List.filter_eq_nil_iff]
    intro q hq
    obtain ⟨e, _, hqe⟩ := List.mem_map.mp hq
    rw [← hqe]
    simp [isErrorMsg]
  · intro hbody
    constructor <;> simp [on_action_report, hp, hbody, send_error, send_message]

/-- Witness: the amended report theorem at sBody — the body entry
survives the successful report and the phase flips to discussion. -/
theorem c2_report_amended_witness :
    (on_action_report sBody "Bob").s.bodies = sBody.bodies ∧
    (on_action_report sBody "Bob").s.phase = "discussion" := by
  have h := (c2_report_amended sBody "Bob" { id := "Bob" } (by decide) (by decide)).1 (by decide)
  exact ⟨h.2.1, by rw [h.1]⟩

/-! ## Claim C8 -/

/-- C8 amended: of the four claimed interrupt triggers only discussion
start and ejection actually interrupt — both run interrupt_player_task,
which moves the Active task to Interrupted, resets turnsRemaining to the
recorded original value and clears movementLocked (the trailing
task-list update then raises an uncaught AttributeError); a kill leaves
the victim's task map, active-task marker and movementLocked untouched;
a disconnect removes the roster entry without any interruption. -/
theorem c8_interrupt_triggers_amended :
    (∀ (s : GameState) (pid reason : String) (p : Player) (ts : List (String × Task))
        (tn : String) (t : Task) (g : Int),
      Dict.get? s.players pid = some p → p.active_task = some tn → p.tasks = some ts →
      Dict.get? ts tn = some t → t.state = TaskState.ACTIVE → t.og_number_of_turns = some g →
      Dict.get? (interrupt_player_task s pid reason).s.players pid =
        some { p with
          tasks := some (Dict.set ts tn
            { t with state := TaskState.INTERRUPTED, turns_remaining := g })
          movement_locked := false
          active_task := none } ∧
      (interrupt_player_task s pid reason).sent = [(pid, Msg.task_interrupted tn reason)] ∧
      (interrupt_player_task s pid reason).exc = some "AttributeError") ∧
    (∀ (s : GameState) (killer_id target_id : String) (killer target : Player),
      Dict.get? s.players killer_id = some killer →
      Dict.get? s.players target_id = some target →
      killer.role = PlayerRole.IMPOSTOR → killer.is_alive = true → target.is_alive = true →
      killer.location = target.location →
      Dict.get? (on_action_kill s killer_id target_id).s.players target_id =
        some { target with is_alive := false } ∧
      (on_action_kill s killer_id target_id).exc = none) ∧
    (∀ (s : GameState) (pid : String),
      (s.players.map Prod.fst).Nodup → (Dict.get? s.players pid).isSome →
      Dict.get? (on_player_disconnected s pid).1.players pid = none ∧
      (∀ q ∈ (on_player_disconnected s pid).2, ∀ tn r2, q.2 ≠ Msg.task_interrupted tn r2)) := by
  refine ⟨?_, ?_, ?_⟩
  · intro s pid reason p ts tn t g hp ha ht htk hstate hog
    rw [interrupt_player_task_active reason hp ha ht htk hstate hog]
    exact ⟨Dict.get?_set_self s.players pid _, rfl, rfl⟩
  · intro s killer_id target_id killer target hk htg hrole halive htalive hloc
    have hr : on_action_kill s killer_id target_id =
        { s := { s with
            players := Dict.set s.players target_id { target with is_alive := false }
            bodies := Dict.set s.bodies target_id target.location }
          sent := broadcast { s with
              players := Dict.set s.players target_id { target with is_alive := false }
              bodies := Dict.set s.bodies target_id target.location }
            (Msg.player_killed killer_id target_id target.location) ++
            [(target_id, Msg.state_update)] } := by
      simp [on_action_kill, hk, htg, hrole, halive, htalive, hloc,
        send_state_update, send_message, Dict.get?_set_self]
    rw [hr]
    exact ⟨Dict.get?_set_self s.players target_id _, rfl⟩
  · intro s pid hnd hp
    obtain ⟨p, hpv⟩ := Option.isSome_iff_exists.mp hp
    have hr : on_player_disconnected s pid =
        ({ s with players := Dict.erase s.players pid },
          broadcast { s with players := Dict.erase s.players pid }
            (Msg.player_disconnected pid)) := by
      simp [on_player_disconnected, hpv]
    rw [hr]
    refine ⟨Dict.get?_erase_self s.players pid hnd, ?_⟩
    intro q hq tn r2
    rw [mem_broadcast hq]
    intro hfalse
    exact Msg.noConfusion hfalse

/-- Witness: the three amended conjuncts at sMidTask — the discussion
interrupt genuinely interrupts Bob (and raises), Alice's kill leaves his
Active task and lock in place, and his disconnect just removes him. -/
theorem c8_interrupt_triggers_amended_witness :
    (interrupt_player_task sMidTask "Bob" "discussion").exc = some "AttributeError" ∧
    Dict.get? (on_action_kill sMidTask "Alice" "Bob").s.players "Bob" =
      some { id := "Bob", is_alive := false, tasks := some [("Task 1", taskActive)],
             active_task := some "Task 1", movement_locked := true } ∧
    Dict.get? (on_player_disconnected sMidTask "Bob").1.players "Bob" = none := by
  refine ⟨?_, ?_, ?_⟩
  · exact (c8_interrupt_triggers_amended.1 sMidTask "Bob" "discussion"
      { id := "Bob", tasks := some [("Task 1", taskActive)],
        active_task := some "Task 1", movement_locked := true }
      [("Task 1", taskActive)] "Task 1" taskActive 1
      (by decide) rfl rfl (by decide) rfl rfl).2.2
  · exact (c8_interrupt_triggers_amended.2.1 sMidTask "Alice" "Bob"
      { id := "Alice", role := PlayerRole.IMPOSTOR }
      { id := "Bob", tasks := some [("Task 1", taskActive)],
        active_task := some "Task 1", movement_locked := true }
      (by decide) (by decide) rfl rfl rfl rfl).1
  · exact (c8_interrupt_triggers_amended.2.2 sMidTask "Bob" (by decide) (by decide)).1

end AmongUs

namespace AmongUs

/-! ## Claim C6 -/

theorem buildCounts_ne_nil (l : List String) (acc : List (String × Nat)) (h : acc ≠ []) :
    buildCounts l acc ≠ [] := by
  induction l generalizing acc with
  | nil => simpa [buildCounts] using h
  | cons v rest ih =>
    simp only [buildCounts]
    exact ih _ (Dict.set_ne_nil _ _ _)

theorem vote_counts_isEmpty_iff (s : GameState) :
    (vote_counts s).isEmpty = true ↔ s.votes = [] := by
  constructor
  · intro h
    cases hv : s.votes with
    | nil => rfl
    | cons w rest =>
      exfalso
      have hne : vote_counts s ≠ [] := by
        unfold vote_counts
        rw [hv]
        simp only [Dict.values, List.map_cons, buildCounts]
        exact buildCounts_ne_nil _ _ (Dict.set_ne_nil _ _ _)
      exact hne (List.isEmpty_iff.mp h)
  · intro h
    unfold vote_counts
    rw [h]
    rfl

/-- C6: tally_votes counts the recorded votes per target (skip
included); when exactly one target holds the maximum and it is not skip,
that player is ejected — alive set to false, the role revealed in the
player_ejected broadcast delivered to every roster entry, every other
roster entry untouched; otherwise (a tie, skip on top, or no votes at
all) no player's alive flag changes and a no_ejection message is
broadcast.  Hypothesis: no player is mid-task (true in every reachable
state, tasks never being assigned); the eject case additionally assumes
the winner is a roster id, the claim's "target is skip or an existing
player id". -/
theorem c6_tally_votes (s : GameState)
    (hactive : ∀ q ∈ s.players, (Prod.snd q).active_task = none) :
    (s.votes = [] →
      tally_votes s = {
        s := { s with votes := [] }
        sent := broadcast s (Msg.no_ejection "No votes cast.")
        tallies := 1 }) ∧
    (∀ c p, tallyCandidates s = [c] → c ≠ "skip" → Dict.get? s.players c = some p →
      (tally_votes s).s = { s with
          players := Dict.set s.players c { p with is_alive := false }
          votes := [] } ∧
      (∀ k ∈ Dict.keys s.players, (k, Msg.player_ejected c p.role) ∈ (tally_votes s).sent) ∧
      (∀ pid2, pid2 ≠ c →
        Dict.get? (tally_votes s).s.players pid2 = Dict.get? s.players pid2) ∧
      Dict.get? (tally_votes s).s.players c = some { p with is_alive := false } ∧
      (tally_votes s).exc = none) ∧
    (s.votes ≠ [] →
      ¬ ((tallyCandidates s).length = 1 ∧ (tallyCandidates s).headD "" ≠ "skip") →
      tally_votes s = {
        s := { s with votes := [] }
        sent := broadcast s (Msg.no_ejection "No one was ejected.")
        tallies := 1 }) := by
  refine ⟨?_, ?_, ?_⟩
  · intro hv
    have hc : (vote_counts s).isEmpty = true := (vote_counts_isEmpty_iff s).mpr hv
    unfold tally_votes
    rw [if_pos hc]
  · intro c p hc hcs hp
    have hcne : ¬ (vote_counts s).isEmpty = true := by
      intro h1
      have hv : s.votes = [] := (vote_counts_isEmpty_iff s).mp h1
      have hnil : tallyCandidates s = [] := by
        unfold tallyCandidates vote_counts
        rw [hv]
        rfl
      rw [hnil] at hc
      exact List.noConfusion hc
    have hcond : (tallyCandidates s).length = 1 ∧ (tallyCandidates s).headD "" ≠ "skip" := by
      rw [hc]
      exact ⟨rfl, hcs⟩
    have hpa : p.active_task = none := hactive (c, p) (Dict.get?_mem hp)
    have hr : tally_votes s = {
        s := { s with
          players := Dict.set s.players c { p with is_alive := false }
          votes := [] }
        sent := broadcast
            { s with players := Dict.set s.players c { p with is_alive := false } }
            (Msg.player_ejected c p.role)
        tallies := 1 } := by
      unfold tally_votes
      rw [if_neg hcne, if_pos hcond]
      dsimp only
      rw [hc]
      simp only [List.headD_cons]
      rw [interrupt_player_task_no_active "death" hp hpa]
      dsimp only
      rw [hp]
      simp only [List.nil_append]
    refine ⟨by rw [hr], ?_, ?_, ?_, by rw [hr]⟩
    · intro k hk
      rw [hr]
      apply broadcast_mem
      have hkeys : (Dict.set s.players c { p with is_alive := false }).map Prod.fst =
          s.players.map Prod.fst := Dict.map_fst_set _ _ _ (by rw [hp]; rfl)
      show k ∈ (Dict.set s.players c { p with is_alive := false }).map Prod.fst
      rw [hkeys]
      exact hk
    · intro pid2 hpid2
      rw [hr]
      exact Dict.get?_set_ne _ _ _ _ (Ne.symm hpid2)
    · rw [hr]
      exact Dict.get?_set_self _ _ _
  · intro hv hnc
    have hcne : ¬ (vote_counts s).isEmpty = true := by
      intro h1
      exact hv ((vote_counts_isEmpty_iff s).mp h1)
    unfold tally_votes
    rw [if_neg hcne, if_neg hnc]

/-- Witness: the tally theorem at the three concrete votes maps of the
claim — 3-vs-skip ejects A; the 2-2 tie ejects nobody; the empty map
ejects nobody. -/
theorem c6_tally_votes_witness :
    Dict.get? (tally_votes sMajority).s.players "A" = some { id := "A", is_alive := false } ∧
    tally_votes sTie = {
      s := { sTie with votes := [] }
      sent := broadcast sTie (Msg.no_ejection "No one was ejected.")
      tallies := 1 } ∧
    tally_votes sNoVotes = {
      s := { sNoVotes with votes := [] }
      sent := broadcast sNoVotes (Msg.no_ejection "No votes cast.")
      tallies := 1 } := by
  refine ⟨?_, ?_, ?_⟩
  · exact ((c6_tally_votes sMajority (by decide)).2.1 "A" { id := "A" }
      (by decide) (by decide) (by decide)).2.2.2.1
  · exact (c6_tally_votes sTie (by decide)).2.2 (by decide) (by decide)
  · exact (c6_tally_votes sNoVotes (by decide)).1 (by decide)

/-! ## Claim C4 -/

/-- C4 amended: the Voting→FreeRoam phase change happens only at
voting-timer expiry — the resumed start_voting_phase tallies exactly
once, silently sets the phase to free_roam (when the tally does not
raise) and broadcasts no phase_change(free_roam) message; an early
all-voted vote action runs the tally once but leaves the phase
untouched; and no inbound action ever cancels a pending voting timer, so
a full early vote is followed by a second tally (of the then-empty votes
map) at expiry. -/
theorem c4_voting_transition_amended :
    (∀ s : GameState,
      (start_voting_phase_resume s).tallies = 1 ∧
      ((start_voting_phase_resume s).exc = none →
        (start_voting_phase_resume s).s.phase = "free_roam") ∧
      (∀ q ∈ (start_voting_phase_resume s).sent, isFreeRoamPhaseChange q.2 = false)) ∧
    (∀ (s : GameState) (pid target : String),
      (Dict.get? s.players pid).isSome → (Dict.get? s.votes pid).isNone →
      (Dict.set s.votes pid target).length ≥ (aliveIds s).length →
      (on_action_vote s pid target).tallies = 1 ∧
      (on_action_vote s pid target).s.phase = s.phase) ∧
    (∀ (c : Config) (pid : String) (a : ActionMsg),
      (stepEv c (Ev.act pid a)).voting_timers = c.voting_timers) := by
  refine ⟨?_, ?_, ?_⟩
  · intro s
    refine ⟨?_, ?_, ?_⟩
    · unfold start_voting_phase_resume
      rcases hexc : (tally_votes s).exc with _ | e
      all_goals simp only [hexc]
      all_goals simp [tally_votes_tallies]
    · intro hnone
      unfold start_voting_phase_resume at hnone ⊢
      dsimp only at hnone ⊢
      rcases hexc : (tally_votes s).exc with _ | e
      · simp only [hexc]
      · rw [hexc] at hnone
        simp at hnone
    · intro q hq
      unfold start_voting_phase_resume at hq
      revert hq
      rcases hexc : (tally_votes s).exc with _ | e
      all_goals simp only [hexc]
      all_goals intro hq
      all_goals exact tally_votes_sent_no_phase s q hq
  · intro s pid target hp hv hge
    obtain ⟨p, hpv⟩ := Option.isSome_iff_exists.mp hp
    have hv' : Dict.get? s.votes pid = none := Option.isNone_iff_eq_none.mp hv
    have hA : aliveIds { s with votes := Dict.set s.votes pid target } = aliveIds s := rfl
    constructor
    · simp [on_action_vote, hv', send_message, hpv, hA, hge, tally_votes_tallies]
    · simp [on_action_vote, hv', send_message, hpv, hA, hge, tally_votes_phase]
  · intro c pid a
    rfl

/-- Witness: the amended voting theorem at concrete inputs — a resumed
timer tallies once on sNoVotes; the lone player's skip vote in sNoVotes
triggers the immediate tally without a phase change; an action step
leaves trioConfig's pending voting timers alone. -/
theorem c4_voting_transition_amended_witness :
    (start_voting_phase_resume sNoVotes).tallies = 1 ∧
    (on_action_vote sNoVotes "A" "skip").tallies = 1 ∧
    (on_action_vote sNoVotes "A" "skip").s.phase = sNoVotes.phase ∧
    (stepEv trioConfig (Ev.act "Alice" (ActionMsg.vote "skip"))).voting_timers =
      trioConfig.voting_timers := by
  have h2 := c4_voting_transition_amended.2.1 sNoVotes "A" "skip"
    (by decide) (by decide) (by decide)
  exact ⟨(c4_voting_transition_amended.1 sNoVotes).1, h2.1, h2.2,
    c4_voting_transition_amended.2.2 trioConfig "Alice" (ActionMsg.vote "skip")⟩

end AmongUs
